import Mathlib

/-
Shallow embedding of `src/algos/classification/classifier.py`
(repository Strasser-Pablo/simclr-pytorch).

The file under verification is orchestration glue around PyTorch: it owns a
model, loss, Adam optimizer and GradScaler, and sequences one-epoch training
with gradient accumulation, periodic validation, testing, and checkpointing.

Modelling decisions (each mirrors a concrete construct of the source):
* Tensors and the forward/backward numerics are external to the repository
  (torch / ClassifierModelTenChan); batch contents are carried opaquely as
  pairs of rational lists and the numeric work is not re-modelled.  All the
  claims are about sequencing, counters, thresholding, mode toggling and
  checkpointing, which the embedding covers faithfully.
* The internal states of the Adam optimizer and of the GradScaler are owned
  by the framework and never inspected by this code; the embedding tracks
  them opaquely as update counters (`optUpdates`, `scalerUpdates`), which is
  exactly enough to observe whether `save`/`load` persist or restore them
  (they start at 0 on construction and grow at every accumulation boundary).
* Python floats compare to 0 exactly as the rationals they denote (NaN
  aside), so logits are embedded as rationals and `pred_y > 0.` as `0 < l`.
* A Python iterator is observed through a fuel-indexed `next`: `none` means
  that no observation was produced within the given fuel (divergence when it
  holds for every fuel), `some (yields b)` an element, `some stopIteration` a
  StopIteration.  Divergence of `train` itself is an `Option` result.
* Exceptions are `Except PyError`; the `scheduler` attribute, which is never
  assigned anywhere in the class, is an `Option` field that construction
  leaves at `none`, so reading it in the debug branch is an AttributeError.
-/

namespace SimclrClassifier

/-- Hyperparameter configuration read by `Classifier.__init__` and the loops:
lr, clip_norm, acc_grad_steps, eval_every, fp16, cuda, backbone name,
pretrained flag, class count (spec section 3, source lines 32-63). -/
structure Hps where
  lr : ℚ
  clip_norm : ℚ
  acc_grad_steps : Nat
  eval_every : Nat
  fp16 : Bool
  cuda : Bool
  backbone : String
  pretrained_w_imagenet : Bool
  num_classes : Nat
deriving DecidableEq

/-- Learnable parameters of the model, as stored in / restored from a
checkpoint (`state_dict`).  Their values are produced by external framework
code; only their identity matters to the claims. -/
abbrev Params := List ℚ

/-- The two operating modes of an `nn.Module`: `model.train()` /
`model.eval()`. -/
inductive Mode
  | train
  | eval
deriving DecidableEq

/-- Python exceptions that the embedded code can surface. -/
inductive PyError
  | attributeError
  | fileNotFoundError
  | externalError
deriving DecidableEq

/-- Observable framework calls made by the loops, one constructor per call
site in `train` / `test` (source lines 95-141, 145-167). -/
inductive Event
  | backward
  | unscale
  | clip
  | optStep
  | scalerUpdate
  | zeroGrad
  | sendTrain
  | modelEval
  | sendVal
  | modelTrain
  | sendTest
  | debugLr
deriving DecidableEq

/-- State of a `Classifier` object.  `gradAccum` counts backward passes since
the last `zero_grad`; `optUpdates` / `scalerUpdates` opaquely track the
framework-owned optimizer / scaler internal state as numbers of updates
applied; `scheduler` is an attribute that no code ever assigns. -/
structure Classifier where
  device : String
  hps : Hps
  iters_so_far : Nat
  epochs_so_far : Nat
  modelParams : Params
  modelMode : Mode
  optUpdates : Nat
  scalerUpdates : Nat
  gradAccum : Nat
  scheduler : Option Unit
deriving DecidableEq

/-- A minibatch: an input tensor and a label tensor, carried opaquely. -/
abbrev Batch := List ℚ × List ℚ

/-- The module-level DEBUG_LVL computation (source lines 22-26).  The
environment value is `none` when DEBUG_LVL is unset (the `.get` default 0 is
then used); `some none` when `int(...)` raises ValueError (invalid value,
falls back to 0); `some (some n)` when it parses to `n`, which `np.clip`
clamps to [0, 3]. -/
def debugLvl (env : Option (Option Int)) : Int :=
  match env with
  | none => 0
  | some none => 0
  | some (some n) => max 0 (min n 3)

/-- `DEBUG = bool(debug_lvl >= 2)` (source line 27). -/
def DEBUG (env : Option (Option Int)) : Bool :=
  decide (2 ≤ debugLvl env)

/-- `Classifier.__init__` (source lines 32-63): zero counters, model in
training mode (nn.Module default), fresh optimizer and scaler state, and no
`scheduler` attribute ever assigned.  `initParams` stands for the externally
produced initial weights of `ClassifierModelTenChan`. -/
def mkClassifier (device : String) (hps : Hps) (initParams : Params) : Classifier :=
  { device := device
    hps := hps
    iters_so_far := 0
    epochs_so_far := 0
    modelParams := initParams
    modelMode := Mode.train
    optUpdates := 0
    scalerUpdates := 0
    gradAccum := 0
    scheduler := none }

/-- Log lines emitted by `__init__`: the clip-norm-disabled notice when
`clip_norm <= 0` (source lines 39-40) and the model summary (line 63). -/
def initLogs (hps : Hps) : List String :=
  (if hps.clip_norm ≤ 0 then
    ["clip_norm=" ++ toString hps.clip_norm ++ " <= 0, hence disabled."]
  else []) ++ ["classifier_model"]

/-- `__init__` never raises: the embedded constructor, with its logs, as a
fallible Python call that always succeeds. -/
def initClassifier (device : String) (hps : Hps) (initParams : Params) :
    Except PyError (Classifier × List String) :=
  Except.ok (mkClassifier device hps initParams, initLogs hps)

/-- The optimizer-step condition of `train` (source line 98):
`((i + 1) % self.hps.acc_grad_steps == 0) or (i + 1 == len(train_dataloader))`. -/
def stepCondition (hps : Hps) (i n : Nat) : Bool :=
  ((i + 1) % hps.acc_grad_steps == 0) || (i + 1 == n)

/-- The evaluation condition of `train` (source line 111):
`((i + 1) % self.hps.eval_every == 0) or (i + 1 == len(train_dataloader))`. -/
def evalCondition (hps : Hps) (i n : Nat) : Bool :=
  ((i + 1) % hps.eval_every == 0) || (i + 1 == n)

/-- The accumulation-boundary block (source lines 98-109): unscale and clip
only when `clip_norm > 0`, then `scaler.step(opt)`, `scaler.update()`,
`opt.zero_grad()` and the publication of the training metrics. -/
def optStepBlock (c : Classifier) : Classifier × List Event :=
  let clipEvents : List Event :=
    if 0 < c.hps.clip_norm then [Event.unscale, Event.clip] else []
  ({ c with
      optUpdates := c.optUpdates + 1
      scalerUpdates := c.scalerUpdates + 1
      gradAccum := 0 },
   clipEvents ++ [Event.optStep, Event.scalerUpdate, Event.zeroGrad, Event.sendTrain])

/-- The validation block (source lines 111-133): `model.eval()`, the
no-grad validation forward / threshold / metric publication, `model.train()`.
This is the happy path; `runEvalBlockWithFailure` below models the same
lines when the body raises. -/
def evalBlockOk (c : Classifier) : Classifier × List Event :=
  let c1 := { c with modelMode := Mode.eval }
  ({ c1 with modelMode := Mode.train },
   [Event.modelEval, Event.sendVal, Event.modelTrain])

/-- One loop body of `train` up to (not including) the debug branch and the
counter increment (source lines 86-133): backward accumulates a gradient,
then the optimizer step fires on its boundary condition, then the validation
block fires on its condition. -/
def batchCore (n i : Nat) (c : Classifier) : Classifier × List Event :=
  let c1 := { c with gradAccum := c.gradAccum + 1 }
  let s := if stepCondition c.hps i n then optStepBlock c1 else (c1, [])
  let e := if evalCondition c.hps i n then evalBlockOk s.1 else (s.1, [])
  (e.1, Event.backward :: (s.2 ++ e.2))

/-- One full loop body of `train` (source lines 86-139): `batchCore`, then
the debug branch — which reads `self.scheduler`, an attribute never assigned,
raising AttributeError when it is absent — then `self.iters_so_far += 1`. -/
def processBatch (dbg : Bool) (n i : Nat) (c : Classifier) :
    Except PyError (Classifier × List Event) :=
  let core := batchCore n i c
  if dbg then
    match core.1.scheduler with
    | none => Except.error PyError.attributeError
    | some _ =>
        Except.ok ({ core.1 with iters_so_far := core.1.iters_so_far + 1 },
          core.2 ++ [Event.debugLr])
  else
    Except.ok ({ core.1 with iters_so_far := core.1.iters_so_far + 1 }, core.2)

/-- The `for i, ... in enumerate(agg_iterable)` loop over the list of batch
indices, threading the classifier state and collecting one event list per
processed batch; an exception aborts the loop and propagates. -/
def runBatches (dbg : Bool) (n : Nat) :
    List Nat → Classifier → Except PyError (Classifier × List (List Event))
  | [], c => Except.ok (c, [])
  | i :: rest, c =>
    match processBatch dbg n i c with
    | Except.error e => Except.error e
    | Except.ok (c', evs) =>
      match runBatches dbg n rest c' with
      | Except.error e => Except.error e
      | Except.ok (c'', trace) => Except.ok (c'', evs :: trace)

/-- Observable outcome of one `next` call on a Python iterator: an element,
or a StopIteration. -/
inductive IterObs
  | yields (b : Batch)
  | stopIteration
deriving DecidableEq

/-- One call to `next` on `itertools.chain.from_iterable(itertools.repeat(vs))`
positioned before the `k`-th element, observed with the given fuel (source
line 80).  Each unit of fuel lets the chain pull one fresh copy of `vs` from
the infinite `repeat`: with `vs` empty the copy yields nothing, so no fuel
ever produces an observation — the call neither yields nor raises
StopIteration; with `vs` nonempty one unit of fuel suffices and the `k`-th
element is `vs[k % len(vs)]`. -/
def chainRepeatNext (vs : List Batch) (k : Nat) : Nat → Option IterObs
  | 0 => none
  | fuel + 1 =>
    if vs.isEmpty then
      chainRepeatNext vs k fuel
    else
      some (IterObs.yields (vs.getD (k % vs.length) ([], [])))

/-- The pair stream produced by `zip(tqdm(train_dataloader), chain...)`
(source lines 78-82): `zip` stops as soon as the training iterator stops, so
with `ts` empty the stream is empty; with `ts` nonempty and `vs` empty the
first `next` on the cycled validation stream diverges (`none`); otherwise the
stream pairs the `i`-th training batch with `vs[i % len(vs)]` and has exactly
`len(ts)` elements. -/
def aggPairs (ts vs : List Batch) : Option (List (Batch × Batch)) :=
  if ts.isEmpty then some []
  else if vs.isEmpty then none
  else
    some ((List.range ts.length).map fun i =>
      (ts.getD i ([], []), vs.getD (i % vs.length) ([], [])))

/-- `Classifier.train` (source lines 76-141): build the paired stream, run
the loop over its indices (the `i + 1 == len(train_dataloader)` tests compare
against the training loader length), then `self.epochs_so_far += 1`.  The
outer `Option` is `none` when the paired stream diverges. -/
def train (dbg : Bool) (c : Classifier) (ts vs : List Batch) :
    Option (Except PyError (Classifier × List (List Event))) :=
  match aggPairs ts vs with
  | none => none
  | some pairs =>
    some (match runBatches dbg ts.length (List.range pairs.length) c with
      | Except.error e => Except.error e
      | Except.ok (c', trace) =>
        Except.ok ({ c' with epochs_so_far := c'.epochs_so_far + 1 }, trace))

/-- The validation-prediction thresholding `(v_pred_y > 0.).long()`
(source line 126), elementwise on the raw logits. -/
def thresholdVal (logits : List ℚ) : List Int :=
  logits.map fun l => if 0 < l then 1 else 0

/-- The test-prediction thresholding `(pred_y > 0.).long()`
(source line 160), elementwise on the raw logits. -/
def thresholdTest (logits : List ℚ) : List Int :=
  logits.map fun l => if 0 < l then 1 else 0

/-- `Classifier.test` (source lines 143-167): `model.eval()`, one no-grad
pass over the loader publishing per-batch test metrics, `model.train()`.
No counter is touched and no optimizer state changes. -/
def test (c : Classifier) (batches : List Batch) : Classifier × List Event :=
  let c1 := { c with modelMode := Mode.eval }
  ({ c1 with modelMode := Mode.train },
   Event.modelEval :: (batches.map fun _ => Event.sendTest) ++ [Event.modelTrain])

/-- The checkpoint file name `f"model_{epochs_so_far}.tar"` (source
lines 170, 174). -/
def ckptFileName (k : Nat) : String :=
  "model_" ++ toString k ++ ".tar"

/-- The checkpoint path `Path(path) / f"model_{epochs_so_far}.tar"`. -/
def ckptPath (path : String) (k : Nat) : String :=
  path ++ "/" ++ ckptFileName k

/-- The file system seen by `torch.save` / `torch.load`, as an association
list from paths to saved parameter sets; a fresh save shadows an older file
of the same name. -/
abbrev FileSys := List (String × Params)

/-- `Classifier.save` (source lines 169-171): write exactly
`self.model.state_dict()` — the model parameters and nothing else — to
`path/model_<k>.tar`.  The classifier object itself is not modified (the
method only returns a new file system). -/
def save (c : Classifier) (fs : FileSys) (path : String) (k : Nat) : FileSys :=
  (ckptPath path k, c.modelParams) :: fs

/-- `Classifier.load` (source lines 173-175): read `path/model_<k>.tar` and
`load_state_dict` it into the model; a missing file is a FileNotFoundError
propagated from `torch.load`.  Only `modelParams` is written. -/
def load (c : Classifier) (fs : FileSys) (path : String) (k : Nat) :
    Except PyError Classifier :=
  match fs.lookup (ckptPath path k) with
  | none => Except.error PyError.fileNotFoundError
  | some p => Except.ok { c with modelParams := p }

/-- The validation block of `train` (source lines 113-133) with an explicit
flag for an exception raised by its body (device transfer, forward pass or
dashboard publication — the spec notes such failures propagate uncaught).
`model.eval()` runs first; `model.train()` is reached only when the body
completes, because no try/finally guards the block, so on failure the
classifier is left in eval-mode and the error propagates. -/
def runEvalBlockWithFailure (c : Classifier) (bodyFails : Bool) :
    Classifier × Option PyError :=
  let c1 := { c with modelMode := Mode.eval }
  if bodyFails then (c1, some PyError.externalError)
  else ({ c1 with modelMode := Mode.train }, none)

/-- The event list produced by one non-debug loop body of `train`, as a
function of the hyperparameters and the batch index alone (the state only
feeds back into the events through `hps`, which the loop never modifies). -/
def eventsOf (hps : Hps) (n i : Nat) : List Event :=
  Event.backward ::
    ((if stepCondition hps i n then
        (if 0 < hps.clip_norm then [Event.unscale, Event.clip] else [])
          ++ [Event.optStep, Event.scalerUpdate, Event.zeroGrad, Event.sendTrain]
      else [])
      ++ (if evalCondition hps i n then
        [Event.modelEval, Event.sendVal, Event.modelTrain]
      else []))

/-- The state transformer of one non-debug loop body of `train`: `batchCore`
followed by `self.iters_so_far += 1`. -/
def stepFalse (n i : Nat) (c : Classifier) : Classifier :=
  { (batchCore n i c).1 with iters_so_far := (batchCore n i c).1.iters_so_far + 1 }

/-- The classifier state of a non-debug `train` call just before batch `i`,
starting from `c`, with `n` the training-loader length. -/
def stateBefore (n : Nat) (c : Classifier) (i : Nat) : Classifier :=
  (List.range i).foldl (fun a j => stepFalse n j a) c

/-- A concrete hyperparameter configuration used to instantiate theorems
with hypotheses on explicit inputs. -/
def sampleHps : Hps :=
  { lr := 1
    clip_norm := 1
    acc_grad_steps := 2
    eval_every := 3
    fp16 := false
    cuda := false
    backbone := "resnet18"
    pretrained_w_imagenet := true
    num_classes := 1 }

/-- `sampleHps` with gradient clipping disabled (`clip_norm = 0`). -/
def sampleHpsNoClip : Hps :=
  { sampleHps with clip_norm := 0 }

/-- A freshly constructed classifier over `sampleHps`. -/
def sampleClassifier : Classifier :=
  mkClassifier "cpu" sampleHps [1, 2]

/-- A classifier that has gone through some optimizer and scaler updates
and holds trained parameter values. -/
def sampleTrained : Classifier :=
  { sampleClassifier with optUpdates := 5, scalerUpdates := 5, modelParams := [3, 4] }

/-- A concrete minibatch. -/
def sampleBatch : Batch :=
  ([1, 2], [1])

/-- A three-batch training loader. -/
def sampleTs : List Batch :=
  [sampleBatch, sampleBatch, sampleBatch]

/-- A one-batch validation loader (shorter than `sampleTs`, so it must be
cycled). -/
def sampleVs : List Batch :=
  [sampleBatch]

/-- A file system holding one checkpoint written at epoch 3. -/
def sampleFs : FileSys :=
  [("ckpt/model_3.tar", [7, 8])]

/-- The classifier obtained by loading `sampleFs`'s epoch-3 checkpoint into
`sampleClassifier`. -/
def sampleLoaded : Classifier :=
  { sampleClassifier with modelParams := [7, 8] }

theorem batchCore_eq (n i : Nat) (c : Classifier) :
    batchCore n i c =
      ({ c with
          modelMode := if evalCondition c.hps i n then Mode.train else c.modelMode
          optUpdates := if stepCondition c.hps i n then c.optUpdates + 1 else c.optUpdates
          scalerUpdates :=
            if stepCondition c.hps i n then c.scalerUpdates + 1 else c.scalerUpdates
          gradAccum := if stepCondition c.hps i n then 0 else c.gradAccum + 1 },
        eventsOf c.hps n i) := by
  unfold batchCore optStepBlock evalBlockOk eventsOf
  by_cases hs : stepCondition c.hps i n <;>
    by_cases he : evalCondition c.hps i n <;>
      simp [hs, he]

theorem processBatch_false (n i : Nat) (c : Classifier) :
    processBatch false n i c = Except.ok (stepFalse n i c, eventsOf c.hps n i) := by
  unfold processBatch stepFalse
  simp [batchCore_eq]

@[simp] theorem stepFalse_hps (n i : Nat) (c : Classifier) :
    (stepFalse n i c).hps = c.hps := by
  simp [stepFalse, batchCore_eq]

@[simp] theorem stepFalse_device (n i : Nat) (c : Classifier) :
    (stepFalse n i c).device = c.device := by
  simp [stepFalse, batchCore_eq]

@[simp] theorem stepFalse_iters (n i : Nat) (c : Classifier) :
    (stepFalse n i c).iters_so_far = c.iters_so_far + 1 := by
  simp [stepFalse, batchCore_eq]

@[simp] theorem stepFalse_epochs (n i : Nat) (c : Classifier) :
    (stepFalse n i c).epochs_so_far = c.epochs_so_far := by
  simp [stepFalse, batchCore_eq]

@[simp] theorem stepFalse_modelParams (n i : Nat) (c : Classifier) :
    (stepFalse n i c).modelParams = c.modelParams := by
  simp [stepFalse, batchCore_eq]

@[simp] theorem stepFalse_scheduler (n i : Nat) (c : Classifier) :
    (stepFalse n i c).scheduler = c.scheduler := by
  simp [stepFalse, batchCore_eq]

theorem stepFalse_gradAccum (n i : Nat) (c : Classifier) :
    (stepFalse n i c).gradAccum =
      if stepCondition c.hps i n then 0 else c.gradAccum + 1 := by
  simp [stepFalse, batchCore_eq]

theorem stepFalse_modelMode (n i : Nat) (c : Classifier) :
    (stepFalse n i c).modelMode =
      if evalCondition c.hps i n then Mode.train else c.modelMode := by
  simp [stepFalse, batchCore_eq]

theorem stepFalse_optUpdates (n i : Nat) (c : Classifier) :
    (stepFalse n i c).optUpdates =
      if stepCondition c.hps i n then c.optUpdates + 1 else c.optUpdates := by
  simp [stepFalse, batchCore_eq]

theorem runBatches_false (n : Nat) :
    ∀ (is : List Nat) (c : Classifier),
      runBatches false n is c =
        Except.ok (is.foldl (fun a j => stepFalse n j a) c, is.map (eventsOf c.hps n))
  | [], _ => rfl
  | i :: rest, c => by
    simp only [runBatches, processBatch_false, runBatches_false n rest (stepFalse n i c),
      stepFalse_hps, List.foldl_cons, List.map_cons]

@[simp] theorem stateBefore_zero (n : Nat) (c : Classifier) :
    stateBefore n c 0 = c := rfl

theorem stateBefore_succ (n : Nat) (c : Classifier) (i : Nat) :
    stateBefore n c (i + 1) = stepFalse n i (stateBefore n c i) := by
  unfold stateBefore
  rw [List.range_succ, List.foldl_append]
  rfl

@[simp] theorem stateBefore_hps (n : Nat) (c : Classifier) (i : Nat) :
    (stateBefore n c i).hps = c.hps := by
  induction i with
  | zero => rfl
  | succ i ih => rw [stateBefore_succ, stepFalse_hps, ih]

@[simp] theorem stateBefore_iters (n : Nat) (c : Classifier) (i : Nat) :
    (stateBefore n c i).iters_so_far = c.iters_so_far + i := by
  induction i with
  | zero => rfl
  | succ i ih =>
    rw [stateBefore_succ, stepFalse_iters, ih]
    omega

@[simp] theorem stateBefore_epochs (n : Nat) (c : Classifier) (i : Nat) :
    (stateBefore n c i).epochs_so_far = c.epochs_so_far := by
  induction i with
  | zero => rfl
  | succ i ih => rw [stateBefore_succ, stepFalse_epochs, ih]

@[simp] theorem stateBefore_scheduler (n : Nat) (c : Classifier) (i : Nat) :
    (stateBefore n c i).scheduler = c.scheduler := by
  induction i with
  | zero => rfl
  | succ i ih => rw [stateBefore_succ, stepFalse_scheduler, ih]

theorem train_false_eq (c : Classifier) (ts vs : List Batch) (hvs : vs ≠ []) :
    train false c ts vs =
      some (Except.ok
        ({ stateBefore ts.length c ts.length with
            epochs_so_far := (stateBefore ts.length c ts.length).epochs_so_far + 1 },
         (List.range ts.length).map (eventsOf c.hps ts.length))) := by
  have hvs' : vs.isEmpty = false := by simpa [List.isEmpty_iff] using hvs
  unfold train aggPairs
  by_cases hts : ts.isEmpty
  · have hlen : ts.length = 0 := by simpa [List.isEmpty_iff, List.length_eq_zero] using hts
    simp [hts, hlen, runBatches_false, stateBefore]
  · simp only [hts, hvs', if_false, if_true, Bool.false_eq_true, List.length_map,
      List.length_range, runBatches_false]
    rfl

theorem optStep_mem_eventsOf (hps : Hps) (n i : Nat) :
    Event.optStep ∈ eventsOf hps n i ↔ stepCondition hps i n = true := by
  unfold eventsOf
  by_cases hs : stepCondition hps i n <;>
    by_cases he : evalCondition hps i n <;>
      by_cases hc : (0 : ℚ) < hps.clip_norm <;>
        simp [hs, he, hc]

theorem clip_not_mem_eventsOf (hps : Hps) (n i : Nat) (h : hps.clip_norm ≤ 0) :
    Event.clip ∉ eventsOf hps n i ∧ Event.unscale ∉ eventsOf hps n i := by
  have hc : ¬ (0 : ℚ) < hps.clip_norm := not_lt.mpr h
  unfold eventsOf
  by_cases hs : stepCondition hps i n <;>
    by_cases he : evalCondition hps i n <;>
      simp [hs, he, hc]

theorem stepCondition_iff (hps : Hps) (i n : Nat) :
    stepCondition hps i n = true ↔
      ((i + 1) % hps.acc_grad_steps = 0 ∨ i + 1 = n) := by
  simp [stepCondition]

theorem succ_mod_of_pos (i acc : Nat) (hacc : 0 < acc) :
    (i + 1) % acc = if i % acc + 1 = acc then 0 else i % acc + 1 := by
  have hd := Nat.div_add_mod i acc
  have hlt : i % acc < acc := Nat.mod_lt _ hacc
  have h1 : i + 1 = acc * (i / acc) + (i % acc + 1) := by omega
  rw [h1, Nat.mul_add_mod]
  by_cases h : i % acc + 1 = acc
  · simp [h, Nat.mod_self]
  · rw [if_neg h, Nat.mod_eq_of_lt (by omega)]

theorem stateBefore_gradAccum (n : Nat) (c : Classifier)
    (hacc : 0 < c.hps.acc_grad_steps) (h0 : c.gradAccum = 0) :
    ∀ i, i < n → (stateBefore n c i).gradAccum = i % c.hps.acc_grad_steps := by
  intro i
  induction i with
  | zero => intro _; simpa [Nat.zero_mod] using h0
  | succ i ih =>
    intro hin
    have hi : i < n := Nat.lt_of_succ_lt hin
    have hrec := ih hi
    rw [stateBefore_succ, stepFalse_gradAccum, stateBefore_hps]
    by_cases hs : stepCondition c.hps i n
    · rw [if_pos hs]
      rcases (stepCondition_iff c.hps i n).mp hs with hmod | hfin
      · omega
      · omega
    · rw [if_neg hs, hrec]
      have hs' := (not_iff_not.mpr (stepCondition_iff c.hps i n)).mp hs
      push_neg at hs'
      rw [succ_mod_of_pos i _ hacc] at hs' ⊢
      by_cases hb : i % c.hps.acc_grad_steps + 1 = c.hps.acc_grad_steps
      · rw [if_pos hb] at hs'
        exact absurd rfl hs'.1
      · rw [if_neg hb]

theorem getD_map_range {α : Type} (f : Nat → α) (n i : Nat) (d : α) (hi : i < n) :
    ((List.range n).map f).getD i d = f i := by
  rw [List.getD_eq_getElem?_getD, List.getElem?_map, List.getElem?_range hi]
  rfl

theorem aggPairs_of_ne (ts vs : List Batch) (hvs : vs ≠ []) :
    aggPairs ts vs
      = some ((List.range ts.length).map fun i =>
          (ts.getD i ([], []), vs.getD (i % vs.length) ([], []))) := by
  have hvs' : vs.isEmpty = false := by simpa [List.isEmpty_iff] using hvs
  unfold aggPairs
  by_cases hts : ts.isEmpty
  · have h0 : ts.length = 0 := by simpa [List.isEmpty_iff, List.length_eq_zero] using hts
    simp [hts, h0]
  · simp [hts, hvs']

theorem processBatch_true_of_scheduler_none (n i : Nat) (c : Classifier)
    (h : c.scheduler = none) :
    processBatch true n i c = Except.error PyError.attributeError := by
  simp [processBatch, batchCore_eq, h]

theorem runBatches_true_error (n i : Nat) (is : List Nat) (c : Classifier)
    (h : c.scheduler = none) :
    runBatches true n (i :: is) c = Except.error PyError.attributeError := by
  rw [runBatches, processBatch_true_of_scheduler_none n i c h]

theorem stateBefore_final_modelMode (c : Classifier) (m : Nat) :
    (stateBefore (m + 1) c (m + 1)).modelMode = Mode.train := by
  rw [stateBefore_succ, stepFalse_modelMode, stateBefore_hps]
  simp [evalCondition]

/-- Claim C1: during `train`, the optimizer-step block (unscale/clip when
enabled, scaler step and update, zero_grad, training-metric publication,
whose events include `Event.optStep`) executes at batch index `i` exactly
when `(i + 1) % acc_grad_steps = 0` or `i + 1` equals the training-loader
length, and on no other index; moreover a firing index is either the final
one or has exactly `acc_grad_steps` backward passes accumulated (the
`gradAccum` of the state at that batch, plus the batch's own backward). -/
theorem c1_optimizer_step_exactly_on_boundaries
    (c : Classifier) (ts vs : List Batch) (hvs : vs ≠ [])
    (hacc : 0 < c.hps.acc_grad_steps) (h0 : c.gradAccum = 0) :
    ∃ c' trace, train false c ts vs = some (Except.ok (c', trace)) ∧
      trace.length = ts.length ∧
      (∀ i, i < ts.length →
        (Event.optStep ∈ trace.getD i [] ↔
          ((i + 1) % c.hps.acc_grad_steps = 0 ∨ i + 1 = ts.length))) ∧
      (∀ i, i < ts.length → Event.optStep ∈ trace.getD i [] →
        (stateBefore ts.length c i).gradAccum + 1 = c.hps.acc_grad_steps ∨
          i + 1 = ts.length) := by
  refine ⟨_, _, train_false_eq c ts vs hvs, by simp, ?_, ?_⟩
  · intro i hi
    rw [getD_map_range _ _ _ _ hi, optStep_mem_eventsOf, stepCondition_iff]
  · intro i hi hmem
    rw [getD_map_range _ _ _ _ hi, optStep_mem_eventsOf, stepCondition_iff] at hmem
    rcases hmem with hmod | hfin
    · by_cases hfin2 : i + 1 = ts.length
      · exact Or.inr hfin2
      · left
        rw [stateBefore_gradAccum ts.length c hacc h0 i hi]
        rw [succ_mod_of_pos i _ hacc] at hmod
        by_cases hb : i % c.hps.acc_grad_steps + 1 = c.hps.acc_grad_steps
        · exact hb
        · rw [if_neg hb] at hmod
          omega
    · exact Or.inr hfin

/-- Witness for C1 at a concrete three-batch training loader, a one-batch
validation loader and `acc_grad_steps = 2`. -/
theorem c1_witness :
    ∃ c' trace,
      train false sampleClassifier sampleTs sampleVs = some (Except.ok (c', trace)) ∧
      trace.length = sampleTs.length ∧
      (Event.optStep ∈ trace.getD 1 [] ↔
        ((1 + 1) % sampleClassifier.hps.acc_grad_steps = 0 ∨ 1 + 1 = sampleTs.length)) := by
  obtain ⟨c', trace, h1, h2, h3, _⟩ :=
    c1_optimizer_step_exactly_on_boundaries sampleClassifier sampleTs sampleVs
      (by decide) (by decide) (by decide)
  exact ⟨c', trace, h1, h2, h3 1 (by decide)⟩

/-- Claim C3: during `train`, `iters_so_far` grows by exactly one per
processed batch pair (whether or not the batch fired a step or an
evaluation), `epochs_so_far` grows by exactly one per completed call, and
neither counter ever decreases under `train`, `test` or `load`. -/
theorem c3_counters_increment_per_batch_and_epoch
    (c : Classifier) (ts vs : List Batch) (hvs : vs ≠ []) :
    (∃ c' trace, train false c ts vs = some (Except.ok (c', trace)) ∧
      c'.iters_so_far = c.iters_so_far + ts.length ∧
      c'.epochs_so_far = c.epochs_so_far + 1 ∧
      c.iters_so_far ≤ c'.iters_so_far ∧
      c.epochs_so_far ≤ c'.epochs_so_far) ∧
    (∀ i, (stateBefore ts.length c (i + 1)).iters_so_far
        = (stateBefore ts.length c i).iters_so_far + 1) ∧
    (∀ bs, (test c bs).1.iters_so_far = c.iters_so_far ∧
      (test c bs).1.epochs_so_far = c.epochs_so_far) ∧
    (∀ fs path k c', load c fs path k = Except.ok c' →
      c'.iters_so_far = c.iters_so_far ∧ c'.epochs_so_far = c.epochs_so_far) := by
  refine ⟨⟨_, _, train_false_eq c ts vs hvs, by simp, by simp, by simp, by simp⟩, ?_, ?_, ?_⟩
  · intro i
    rw [stateBefore_succ, stepFalse_iters]
  · intro bs
    exact ⟨rfl, rfl⟩
  · intro fs path k c' h
    unfold load at h
    cases hl : fs.lookup (ckptPath path k) with
    | none => rw [hl] at h; cases h
    | some p =>
      rw [hl] at h
      cases h
      exact ⟨rfl, rfl⟩

/-- Witness for C3 at a concrete three-batch run: the iteration counter ends
at 3 and the epoch counter at 1. -/
theorem c3_witness :
    ∃ c' trace,
      train false sampleClassifier sampleTs sampleVs = some (Except.ok (c', trace)) ∧
      c'.iters_so_far = sampleClassifier.iters_so_far + sampleTs.length ∧
      c'.epochs_so_far = sampleClassifier.epochs_so_far + 1 := by
  obtain ⟨⟨c', trace, h1, h2, h3, _, _⟩, _, _, _⟩ :=
    c3_counters_increment_per_batch_and_epoch sampleClassifier sampleTs sampleVs (by decide)
  exact ⟨c', trace, h1, h2, h3⟩

/-- Claim C4: both the validation thresholding inside `train` and the test
thresholding inside `test` map a raw logit `l` to class `1` exactly when
`l > 0` and to class `0` otherwise; they are the identical rule, and on the
logits `-1`, `0`, `1/2` they produce classes `0`, `0`, `1`. -/
theorem c4_threshold_strictly_at_zero :
    thresholdVal = thresholdTest ∧
    thresholdVal [(-1 : ℚ), 0, 1/2] = [0, 0, 1] ∧
    (∀ logits : List ℚ,
      thresholdVal logits = logits.map fun l => if 0 < l then 1 else 0) := by
  refine ⟨rfl, ?_, fun _ => rfl⟩
  norm_num [thresholdVal]

/-- Claim C5: with a nonempty validation loader, the paired stream of
`train` pairs the `i`-th training batch with validation batch
`i % len(val)` — the validation loader is restarted indefinitely, each
`next` on the cycled stream yields and never raises StopIteration — and the
stream stops exactly at the training-loader length. -/
theorem c5_validation_loader_cycled
    (ts vs : List Batch) (hvs : vs ≠ []) :
    ∃ pairs, aggPairs ts vs = some pairs ∧
      pairs.length = ts.length ∧
      (∀ i, i < ts.length →
        pairs.getD i (([], []), ([], []))
          = (ts.getD i ([], []), vs.getD (i % vs.length) ([], []))) ∧
      (∀ k fuel, 0 < fuel →
        chainRepeatNext vs k fuel
          = some (IterObs.yields (vs.getD (k % vs.length) ([], [])))) := by
  have hvs' : vs.isEmpty = false := by simpa [List.isEmpty_iff] using hvs
  refine ⟨_, aggPairs_of_ne ts vs hvs, by simp, ?_, ?_⟩
  · intro i hi
    rw [getD_map_range _ _ _ _ hi]
  · intro k fuel hf
    match fuel, hf with
    | f + 1, _ => simp [chainRepeatNext, hvs']

/-- Witness for C5 at a three-batch training loader and a one-batch
validation loader: three pairs are formed, each carrying the single
validation batch. -/
theorem c5_witness :
    ∃ pairs, aggPairs sampleTs sampleVs = some pairs ∧
      pairs.length = sampleTs.length ∧
      pairs.getD 2 (([], []), ([], []))
        = (sampleTs.getD 2 ([], []), sampleVs.getD (2 % sampleVs.length) ([], [])) := by
  obtain ⟨pairs, h1, h2, h3, _⟩ :=
    c5_validation_loader_cycled sampleTs sampleVs (by decide)
  exact ⟨pairs, h1, h2, h3 2 (by decide)⟩

/-- Claim C6: with `clip_norm ≤ 0`, construction succeeds and only logs that
clipping is disabled, and a non-debug `train` call completes every batch
with neither the clipping routine nor its gradient unscaling ever invoked. -/
theorem c6_clip_norm_nonpositive_disables_clipping
    (device : String) (hps : Hps) (p0 : Params) (ts vs : List Batch)
    (hclip : hps.clip_norm ≤ 0) (hvs : vs ≠ []) :
    initClassifier device hps p0
      = Except.ok (mkClassifier device hps p0, initLogs hps) ∧
    ("clip_norm=" ++ toString hps.clip_norm ++ " <= 0, hence disabled.") ∈ initLogs hps ∧
    ∃ c' trace,
      train false (mkClassifier device hps p0) ts vs = some (Except.ok (c', trace)) ∧
      trace.length = ts.length ∧
      ∀ evs ∈ trace, Event.clip ∉ evs ∧ Event.unscale ∉ evs := by
  refine ⟨rfl, ?_, _, _, train_false_eq _ ts vs hvs, by simp, ?_⟩
  · unfold initLogs
    rw [if_pos hclip]
    simp
  · intro evs hmem
    rw [List.mem_map] at hmem
    obtain ⟨i, _, rfl⟩ := hmem
    exact clip_not_mem_eventsOf hps ts.length i hclip

/-- Witness for C6 at `sampleHpsNoClip` (`clip_norm = 0`) over the concrete
three-batch run. -/
theorem c6_witness :
    initClassifier "cpu" sampleHpsNoClip [1, 2]
      = Except.ok (mkClassifier "cpu" sampleHpsNoClip [1, 2], initLogs sampleHpsNoClip) ∧
    ∃ c' trace,
      train false (mkClassifier "cpu" sampleHpsNoClip [1, 2]) sampleTs sampleVs
        = some (Except.ok (c', trace)) ∧
      trace.length = sampleTs.length ∧
      ∀ evs ∈ trace, Event.clip ∉ evs ∧ Event.unscale ∉ evs := by
  obtain ⟨h1, _, c', trace, h3, h4, h5⟩ :=
    c6_clip_norm_nonpositive_disables_clipping "cpu" sampleHpsNoClip [1, 2]
      sampleTs sampleVs (by decide) (by decide)
  exact ⟨h1, c', trace, h3, h4, h5⟩

/-- Claim C10: `train` terminates whenever the validation loader yields at
least one batch; when the validation loader is empty and the training loader
is not, the cycled validation stream never yields an element and never
raises StopIteration whatever the fuel, and `train` diverges. -/
theorem c10_train_terminates_iff_val_nonempty
    (dbg : Bool) (c : Classifier) (ts vs : List Batch) (hts : ts ≠ []) :
    (vs ≠ [] → (train dbg c ts vs).isSome = true) ∧
    (vs = [] → train dbg c ts vs = none ∧
      ∀ k fuel, chainRepeatNext vs k fuel = none) := by
  constructor
  · intro hvs
    rw [train, aggPairs_of_ne ts vs hvs]
    rfl
  · intro hvs
    subst hvs
    have hts' : ts.isEmpty = false := by simpa [List.isEmpty_iff] using hts
    refine ⟨?_, ?_⟩
    · rw [train, aggPairs]
      simp [hts']
    · intro k fuel
      induction fuel with
      | zero => rfl
      | succ f ih => simp [chainRepeatNext, ih]

/-- Witness for C10: the concrete nonempty pair of loaders terminates, and
the empty validation loader diverges. -/
theorem c10_witness :
    (train false sampleClassifier sampleTs sampleVs).isSome = true ∧
    train false sampleClassifier sampleTs [] = none := by
  constructor
  · exact (c10_train_terminates_iff_val_nonempty false sampleClassifier sampleTs sampleVs
      (by decide)).1 (by decide)
  · exact ((c10_train_terminates_iff_val_nonempty false sampleClassifier sampleTs []
      (by decide)).2 rfl).1

/-- Claim C2: saving at epoch `k` then loading at epoch `k` into a freshly
constructed classifier reproduces exactly the saved model parameters; the
checkpoint is the deterministically named file `model_<k>.tar` under the
given directory and contains only the model parameters; after the load the
optimizer and scaler states equal their freshly constructed values (0
updates), hence differ from any pre-save state that underwent an update. -/
theorem c2_save_load_roundtrip
    (d2 : String) (hps2 : Hps) (p0 : Params) (c1 : Classifier)
    (fs : FileSys) (path : String) (k : Nat)
    (hopt : c1.optUpdates ≠ 0) :
    load (mkClassifier d2 hps2 p0) (save c1 fs path k) path k
      = Except.ok { mkClassifier d2 hps2 p0 with modelParams := c1.modelParams } ∧
    ({ mkClassifier d2 hps2 p0 with modelParams := c1.modelParams } : Classifier).modelParams
      = c1.modelParams ∧
    save c1 fs path k = (ckptPath path k, c1.modelParams) :: fs ∧
    ckptPath path k = path ++ "/" ++ ("model_" ++ toString k ++ ".tar") ∧
    ({ mkClassifier d2 hps2 p0 with modelParams := c1.modelParams } : Classifier).optUpdates
      = 0 ∧
    ({ mkClassifier d2 hps2 p0 with modelParams := c1.modelParams } : Classifier).scalerUpdates
      = 0 ∧
    ({ mkClassifier d2 hps2 p0 with modelParams := c1.modelParams } : Classifier).optUpdates
      ≠ c1.optUpdates := by
  refine ⟨?_, rfl, rfl, rfl, rfl, rfl, ?_⟩
  · unfold load save
    simp [List.lookup]
  · show (0 : Nat) ≠ c1.optUpdates
    omega

/-- Witness for C2: a trained classifier with 5 optimizer updates is saved
at epoch 3 into an empty file system and loaded into a fresh classifier. -/
theorem c2_witness :
    load (mkClassifier "cpu" sampleHps [9, 9]) (save sampleTrained [] "ckpt" 3) "ckpt" 3
      = Except.ok { mkClassifier "cpu" sampleHps [9, 9] with
          modelParams := sampleTrained.modelParams } ∧
    ({ mkClassifier "cpu" sampleHps [9, 9] with
        modelParams := sampleTrained.modelParams } : Classifier).optUpdates
      ≠ sampleTrained.optUpdates := by
  obtain ⟨h1, _, _, _, _, _, h7⟩ :=
    c2_save_load_roundtrip "cpu" sampleHps [9, 9] sampleTrained [] "ckpt" 3 (by decide)
  exact ⟨h1, h7⟩

/-- Claim C9: `load` mutates only the model parameters — both counters, the
hyperparameters, the mode, the optimizer/scaler states and the (absent)
scheduler attribute are untouched — and `save` reads nothing of the
classifier beyond the model parameters. -/
theorem c9_save_load_leave_counters_unchanged
    (c : Classifier) (fs : FileSys) (path : String) (k : Nat) (c' : Classifier)
    (hload : load c fs path k = Except.ok c') :
    c'.iters_so_far = c.iters_so_far ∧
    c'.epochs_so_far = c.epochs_so_far ∧
    c'.device = c.device ∧
    c'.hps = c.hps ∧
    c'.modelMode = c.modelMode ∧
    c'.optUpdates = c.optUpdates ∧
    c'.scalerUpdates = c.scalerUpdates ∧
    c'.gradAccum = c.gradAccum ∧
    c'.scheduler = c.scheduler ∧
    c' = { c with modelParams := c'.modelParams } ∧
    (∀ c2 : Classifier, c2.modelParams = c.modelParams →
      save c2 fs path k = save c fs path k) := by
  unfold load at hload
  cases hl : fs.lookup (ckptPath path k) with
  | none =>
    rw [hl] at hload
    cases hload
  | some p =>
    rw [hl] at hload
    cases hload
    refine ⟨rfl, rfl, rfl, rfl, rfl, rfl, rfl, rfl, rfl, rfl, ?_⟩
    intro c2 h2
    unfold save
    rw [h2]

/-- Witness for C9: loading the concrete epoch-3 checkpoint of `sampleFs`
into `sampleClassifier` keeps both counters at their pre-load values. -/
theorem c9_witness :
    sampleLoaded.iters_so_far = sampleClassifier.iters_so_far ∧
    sampleLoaded.epochs_so_far = sampleClassifier.epochs_so_far ∧
    sampleLoaded.optUpdates = sampleClassifier.optUpdates := by
  obtain ⟨h1, h2, _, _, _, h6, _⟩ :=
    c9_save_load_leave_counters_unchanged sampleClassifier sampleFs "ckpt" 3 sampleLoaded
      (by rfl)
  exact ⟨h1, h2, h6⟩

/-- Claim C8: with DEBUG_LVL parsing to 2 or more at module load, any `train`
call that processes at least one batch hits the debug branch, whose read of
the never-assigned `scheduler` attribute raises AttributeError; with
DEBUG_LVL below 2 — unset, invalid, or parsing below 2 — the branch is
skipped and `train` completes normally. -/
theorem c8_debug_branch_reads_missing_scheduler
    (env : Option (Option Int)) (c : Classifier) (ts vs : List Batch)
    (hts : ts ≠ []) (hvs : vs ≠ []) (hsched : c.scheduler = none) :
    (DEBUG env = true →
      train (DEBUG env) c ts vs = some (Except.error PyError.attributeError)) ∧
    (DEBUG env = false →
      ∃ c' trace, train (DEBUG env) c ts vs = some (Except.ok (c', trace))) ∧
    DEBUG none = false ∧
    DEBUG (some none) = false ∧
    (∀ m : Int, 2 ≤ m → DEBUG (some (some m)) = true) ∧
    (∀ m : Int, m < 2 → DEBUG (some (some m)) = false) ∧
    (∀ d h p, (mkClassifier d h p).scheduler = none) := by
  refine ⟨?_, ?_, rfl, rfl, ?_, ?_, fun _ _ _ => rfl⟩
  · intro hdbg
    rw [hdbg, train, aggPairs_of_ne ts vs hvs]
    obtain ⟨t, ts', rfl⟩ : ∃ t ts', ts = t :: ts' := by
      cases ts with
      | nil => exact absurd rfl hts
      | cons t ts' => exact ⟨t, ts', rfl⟩
    simp only [List.length_map, List.length_range, List.length_cons,
      List.range_succ_eq_map]
    rw [runBatches_true_error _ _ _ c hsched]
  · intro hdbg
    rw [hdbg]
    exact ⟨_, _, train_false_eq c ts vs hvs⟩
  · intro m hm
    simp only [DEBUG, debugLvl, decide_eq_true_eq]
    omega
  · intro m hm
    simp only [DEBUG, debugLvl, decide_eq_false_iff_not, not_le]
    omega

/-- Witness for C8: DEBUG_LVL=2 makes the concrete one-epoch run fail with
AttributeError, while the unset default completes it. -/
theorem c8_witness :
    train true sampleClassifier sampleTs sampleVs
      = some (Except.error PyError.attributeError) ∧
    DEBUG (some (some 2)) = true ∧
    DEBUG none = false := by
  obtain ⟨h1, _, h3, _, _, _, _⟩ :=
    c8_debug_branch_reads_missing_scheduler (some (some 2)) sampleClassifier
      sampleTs sampleVs (by decide) (by decide) (by decide)
  have hd : DEBUG (some (some 2)) = true := by decide
  rw [hd] at h1
  exact ⟨h1 rfl, hd, h3⟩

/-- Claim C7 counterexample: when the body of the validation block raises
(the error being caught by an upstream caller), the classifier is left in
eval-mode, not training mode — the restoration asserted by the claim fails
at this concrete input. -/
theorem c7_counterexample :
    (runEvalBlockWithFailure sampleClassifier true).2 = some PyError.externalError ∧
    ¬ (runEvalBlockWithFailure sampleClassifier true).1.modelMode = Mode.train := by
  exact ⟨rfl, by decide⟩

/-- Claim C7 as amended: the model has exactly the two modes train/eval;
after a normally completing validation block, a normally completing `test`,
or a full non-debug `train` epoch, the model is back in training mode; but
when an exception occurs inside the evaluation block, no restoration
happens and the model remains in eval-mode. -/
theorem c7_two_modes_restored_only_on_normal_completion
    (c : Classifier) (ts vs bs : List Batch) (hts : ts ≠ []) (hvs : vs ≠ []) :
    (∀ m : Mode, m = Mode.train ∨ m = Mode.eval) ∧
    (runEvalBlockWithFailure c false).1.modelMode = Mode.train ∧
    (runEvalBlockWithFailure c false).2 = none ∧
    (runEvalBlockWithFailure c true).1.modelMode = Mode.eval ∧
    (runEvalBlockWithFailure c true).2 = some PyError.externalError ∧
    (test c bs).1.modelMode = Mode.train ∧
    (∃ c' trace, train false c ts vs = some (Except.ok (c', trace)) ∧
      c'.modelMode = Mode.train) := by
  refine ⟨?_, rfl, rfl, rfl, rfl, rfl, ?_⟩
  · intro m
    cases m with
    | train => exact Or.inl rfl
    | eval => exact Or.inr rfl
  · obtain ⟨t, ts', rfl⟩ : ∃ t ts', ts = t :: ts' := by
      cases ts with
      | nil => exact absurd rfl hts
      | cons t ts' => exact ⟨t, ts', rfl⟩
    refine ⟨_, _, train_false_eq c (t :: ts') vs hvs, ?_⟩
    exact stateBefore_final_modelMode c ts'.length

/-- Witness for the amended C7 at the concrete inputs: test restores
training mode and a full epoch ends in training mode. -/
theorem c7_witness :
    (test sampleClassifier sampleTs).1.modelMode = Mode.train ∧
    (∃ c' trace,
      train false sampleClassifier sampleTs sampleVs = some (Except.ok (c', trace)) ∧
      c'.modelMode = Mode.train) := by
  obtain ⟨_, _, _, _, _, h6, h7⟩ :=
    c7_two_modes_restored_only_on_normal_completion sampleClassifier sampleTs sampleVs
      sampleTs (by decide) (by decide)
  exact ⟨h6, h7⟩

end SimclrClassifier
